import Mathlib

/-!
Shallow embedding of the rofi widget-toolkit excerpt: the generic widget
geometry/redraw contract (src/include/widgets/widget.h) and the listview
selection/scroll state machine (src/include/widgets/listview.h).

The repository excerpt ships only the public headers; the function bodies of
widget.c and listview.c are not present.  Every operation below is therefore
modelled from the natural-language specification (spec.md), staying faithful
to the declared C signatures (e.g. `short` parameters of widget_move and
widget_resize become explicit truncation modulo 2^16).
-/

namespace Rofi

/-- Conversion of a C `int` argument to a 16-bit signed `short` parameter:
truncation modulo 2^16 into the range [-32768, 32767]. -/
def toShort (n : Int) : Int := (n + 32768) % 65536 - 32768

/-- Modelled from the spec: the abstract widget state visible through the
geometry accessors — position x, y (signed, relative to parent), size w, h,
and the enabled flag.  The implementation file widget.c is missing from the
excerpt; the fields follow spec.md section 3 and the widget.h declarations. -/
structure Widget where
  x : Int
  y : Int
  w : Int
  h : Int
  enabled : Bool
deriving Repr, DecidableEq

/-- Modelled from the spec: pure hit-test of point (px, py) against the
widget rectangle, per widget.h `widget_intersect` and spec.md
"intersect(x,y): pure hit-test against current geometry". -/
def widget_intersect (wd : Widget) (px py : Int) : Bool :=
  decide (wd.x ≤ px ∧ px < wd.x + wd.w ∧ wd.y ≤ py ∧ py < wd.y + wd.h)

/-- Modelled from the spec: `widget_move` sets the position; the C
declaration takes `short` arguments, so each coordinate is truncated
modulo 2^16 at the call boundary. -/
def widget_move (wd : Widget) (nx ny : Int) : Widget :=
  { wd with x := toShort nx, y := toShort ny }

/-- Modelled from the spec: `widget_resize` sets the size; the C declaration
takes `short` arguments (truncation modulo 2^16), and spec.md section 7 says
"resize with non-positive dimensions is rejected by clamping to zero". -/
def widget_resize (wd : Widget) (nw nh : Int) : Widget :=
  { wd with w := max 0 (toShort nw), h := max 0 (toShort nh) }

/-- Getter for the x position (returns C `int`). -/
def widget_get_x_pos (wd : Widget) : Int := wd.x

/-- Getter for the y position (returns C `int`). -/
def widget_get_y_pos (wd : Widget) : Int := wd.y

/-- Getter for the width (returns C `int`). -/
def widget_get_width (wd : Widget) : Int := wd.w

/-- Getter for the height (returns C `int`). -/
def widget_get_height (wd : Widget) : Int := wd.h

/-! ## Widget tree and redraw-dirty propagation -/

/-- Modelled from the spec: a widget tree with a redraw-dirty flag per node.
The parent back-reference of widget.h is represented by addressing a widget
through its path of child indices from the root. -/
inductive WTree where
  | node (dirty : Bool) (children : List WTree)

/-- The redraw-dirty flag of the tree's root node. -/
def WTree.dirtyFlag : WTree → Bool
  | .node d _ => d

/-- Replace the i-th element of a list of subtrees by its image under f. -/
def modifyChild (f : WTree → WTree) : Nat → List WTree → List WTree
  | _, [] => []
  | 0, c :: cs => f c :: cs
  | i + 1, c :: cs => c :: modifyChild f i cs

/-- Modelled from the spec: `widget_queue_redraw` on the widget addressed by
`p` sets the dirty flag on that widget and on every ancestor up to the
toplevel widget (spec.md: "sets the dirty flag and propagates the same
request through the parent chain to the root").  The body of widget.c is
missing from the excerpt. -/
def widget_queue_redraw : List Nat → WTree → WTree
  | [], .node _ cs => .node true cs
  | i :: p, .node _ cs => .node true (modifyChild (widget_queue_redraw p) i cs)

/-- Modelled from the spec: `widget_need_redraw` reads the flag on the
toplevel widget. -/
def widget_need_redraw (t : WTree) : Bool := t.dirtyFlag

/-- Modelled from the spec: the render pass draws the toplevel widget's
subtree once when the dirty flag is set, and not at all otherwise; this
counts the draw invocations reaching the subtree in one pass. -/
def renderDrawCount (t : WTree) : Nat := if widget_need_redraw t then 1 else 0

mutual
/-- Modelled from the spec: the render pass clears every dirty flag after
drawing. -/
def clearTree : WTree → WTree
  | .node _ cs => .node false (clearList cs)

/-- Clear the dirty flags of a list of subtrees. -/
def clearList : List WTree → List WTree
  | [] => []
  | c :: cs => clearTree c :: clearList cs
end

/-! ## Listview data model -/

/-- The scrolling type used in the list view (listview.h `ScrollType`). -/
inductive ScrollType where
  | LISTVIEW_SCROLL_PER_PAGE
  | LISTVIEW_SCROLL_CONTINIOUS
deriving Repr, DecidableEq

/-- Modelled from the spec: the listview navigation state tuple of spec.md
section 4.2 — (selected_index, scroll_offset, visible_line_count,
multi_selected) together with row_count and the configuration flags.  The
implementation file listview.c is missing from the excerpt. -/
structure ListView where
  row_count : Nat
  selected : Nat
  scroll_offset : Nat
  visible : Nat
  max_lines : Nat
  row_height : Nat
  fixed : Bool
  cycle : Bool
  stype : ScrollType
  multi_selected : List Nat
deriving Repr, DecidableEq

/-- Modelled from the spec: scroll recomputation invoked after every
navigation (spec.md section 4.2).  PER_PAGE jumps the offset in increments
of visible_line_count, only when the selection leaves the window;
CONTINIOUS adjusts the offset by the minimum amount keeping the selection
inside the window (the exact centering bias is an open question in spec.md
section 9; the minimal-adjustment policy satisfying the visibility
invariant is chosen). -/
def clampWindow (st : ScrollType) (vis sel off : Nat) : Nat :=
  if vis = 0 then off
  else
    match st with
    | .LISTVIEW_SCROLL_PER_PAGE =>
        if sel < off ∨ off + vis ≤ sel then vis * (sel / vis) else off
    | .LISTVIEW_SCROLL_CONTINIOUS =>
        if sel < off then sel
        else if off + vis ≤ sel then sel + 1 - vis
        else off

/-- Set the selection to `sel` and recompute scroll_offset, the common tail
of every navigation operation. -/
def navApply (lv : ListView) (sel : Nat) : ListView :=
  { lv with selected := sel,
            scroll_offset := clampWindow lv.stype lv.visible sel lv.scroll_offset }

/-- Modelled from the spec: `listview_set_num_elements` sets row_count; if
selected_index ≥ rows it clamps to rows − 1 (0 when rows = 0) and
recomputes scroll_offset (spec.md section 4.2). -/
def listview_set_num_elements (lv : ListView) (rows : Nat) : ListView :=
  let sel := if rows ≤ lv.selected then rows - 1 else lv.selected
  { lv with row_count := rows, selected := sel,
            scroll_offset := clampWindow lv.stype lv.visible sel lv.scroll_offset }

/-- Modelled from the spec: `listview_set_selected` clamps the index to
[0, row_count − 1] and recomputes scroll_offset, leaving the view unchanged
when row_count = 0 (spec.md section 4.2). -/
def listview_set_selected (lv : ListView) (i : Nat) : ListView :=
  if lv.row_count = 0 then lv
  else navApply lv (min i (lv.row_count - 1))

/-- Modelled from the spec: `listview_get_selected` returns the selected
row; an empty view reports selected_index = 0 (spec.md section 4.2,
failure/edge policy). -/
def listview_get_selected (lv : ListView) : Nat :=
  if lv.row_count = 0 then 0 else lv.selected

/-- Modelled from the spec: `listview_nav_up` moves the selection one row up
with unconditional wrap-around at the row_count boundary (spec.md
section 4.2; listview.h "Move the selection one row up. - Wrap around."). -/
def listview_nav_up (lv : ListView) : ListView :=
  if lv.row_count = 0 then lv
  else navApply lv (if lv.selected = 0 then lv.row_count - 1 else lv.selected - 1)

/-- Modelled from the spec: `listview_nav_down` moves the selection one row
down with unconditional wrap-around at the row_count boundary. -/
def listview_nav_down (lv : ListView) : ListView :=
  if lv.row_count = 0 then lv
  else navApply lv (if lv.selected = lv.row_count - 1 then 0 else lv.selected + 1)

/-- Modelled from the spec: `listview_nav_left` — in the single-column
layout the selection does not move; the scroll recomputation still runs
(spec.md section 4.2: nav_left/nav_right are no-ops in a single-column
layout, and scroll recomputation is invoked after every navigation). -/
def listview_nav_left (lv : ListView) : ListView :=
  if lv.row_count = 0 then lv else navApply lv lv.selected

/-- Modelled from the spec: `listview_nav_right` — single-column no-op on
the selection, with the scroll recomputation applied. -/
def listview_nav_right (lv : ListView) : ListView :=
  if lv.row_count = 0 then lv else navApply lv lv.selected

/-- Modelled from the spec: `listview_nav_page_next` moves the selection one
page (visible_line_count rows) down, clipped to row_count − 1; when `cycle`
is set and the selection is already at the last row it wraps to row 0
instead of clipping (spec.md section 4.2; listview.h `listview_set_cycle`
"On last entry go to first"). -/
def listview_nav_page_next (lv : ListView) : ListView :=
  if lv.row_count = 0 then lv
  else if lv.cycle = true ∧ lv.selected = lv.row_count - 1 then navApply lv 0
  else navApply lv (min (lv.selected + lv.visible) (lv.row_count - 1))

/-- Modelled from the spec: `listview_nav_page_prev` moves the selection one
page up, clipped at row 0; when `cycle` is set and the selection is already
at row 0 it wraps to the last row. -/
def listview_nav_page_prev (lv : ListView) : ListView :=
  if lv.row_count = 0 then lv
  else if lv.cycle = true ∧ lv.selected = 0 then navApply lv (lv.row_count - 1)
  else navApply lv (lv.selected - lv.visible)

/-- Modelled from the spec: `listview_set_cycle` sets cycle mode
(listview.h: "Set cycle mode. On last entry go to first."). -/
def listview_set_cycle (lv : ListView) (c : Bool) : ListView :=
  { lv with cycle := c }

/-- Modelled from the spec: `listview_set_max_lines` sets the upper clamp on
visible_line_count in dynamic mode. -/
def listview_set_max_lines (lv : ListView) (n : Nat) : ListView :=
  { lv with max_lines := n }

/-- Modelled from the spec: `listview_set_fixed_num_lines` pins
visible_line_count, ignoring available height from then on. -/
def listview_set_fixed_num_lines (lv : ListView) : ListView :=
  { lv with fixed := true }

/-- Modelled from the spec: the listview's reaction to `widget_resize`
giving available height h — in dynamic mode visible_line_count becomes
min(max_lines, floor(h / row_height)) and the scroll_offset is recomputed;
fixed mode ignores the height (spec.md section 4.2 set_fixed_num_lines /
set_max_lines and section 8). -/
def listview_resize (lv : ListView) (hAvail : Nat) : ListView :=
  if lv.fixed then lv
  else
    let v := min lv.max_lines (hAvail / lv.row_height)
    { lv with visible := v,
              scroll_offset := clampWindow lv.stype v lv.selected lv.scroll_offset }

/-- The visibility invariant of spec.md: the selected row lies inside the
visible window. -/
def visibleInv (lv : ListView) : Prop :=
  lv.scroll_offset ≤ lv.selected ∧ lv.selected < lv.scroll_offset + lv.visible

/-! ## Helper lemmas -/

lemma clampWindow_mem (st : ScrollType) (vis sel off : Nat) (hv : 0 < vis) :
    clampWindow st vis sel off ≤ sel ∧ sel < clampWindow st vis sel off + vis := by
  unfold clampWindow
  rw [if_neg (by omega)]
  cases st with
  | LISTVIEW_SCROLL_PER_PAGE =>
      dsimp only
      by_cases hc : sel < off ∨ off + vis ≤ sel
      · rw [if_pos hc]
        have h1 := Nat.div_add_mod sel vis
        have h2 := Nat.mod_lt sel hv
        omega
      · rw [if_neg hc]
        push_neg at hc
        omega
  | LISTVIEW_SCROLL_CONTINIOUS =>
      dsimp only
      by_cases hc : sel < off
      · rw [if_pos hc]; omega
      · rw [if_neg hc]
        by_cases hc2 : off + vis ≤ sel
        · rw [if_pos hc2]; omega
        · rw [if_neg hc2]; omega

lemma navApply_visibleInv (lv : ListView) (s : Nat) (hv : 0 < lv.visible) :
    visibleInv (navApply lv s) := by
  have h := clampWindow_mem lv.stype lv.visible s lv.scroll_offset hv
  exact ⟨h.1, h.2⟩

/-- C1: For every listview with row_count > 1, `listview_nav_up` at
selected_index = 0 wraps the selection to row_count − 1 and
`listview_nav_down` at selected_index = row_count − 1 wraps it to 0,
unconditionally and independently of the cycle flag set by
`listview_set_cycle`. -/
theorem nav_up_down_wrap_unconditional (lv : ListView) (c : Bool)
    (hr : 1 < lv.row_count) :
    (lv.selected = 0 →
      (listview_nav_up (listview_set_cycle lv c)).selected = lv.row_count - 1) ∧
    (lv.selected = lv.row_count - 1 →
      (listview_nav_down (listview_set_cycle lv c)).selected = 0) := by
  have hne : lv.row_count ≠ 0 := by omega
  constructor
  · intro h0
    simp [listview_nav_up, listview_set_cycle, navApply, hne, h0]
  · intro h1
    simp [listview_nav_down, listview_set_cycle, navApply, hne, h1]

/-- Concrete listview used by the witnesses: 10 rows, a 5-row window. -/
def lvA : ListView :=
  { row_count := 10, selected := 0, scroll_offset := 0, visible := 5,
    max_lines := 5, row_height := 1, fixed := false, cycle := false,
    stype := .LISTVIEW_SCROLL_PER_PAGE, multi_selected := [] }

theorem nav_up_down_wrap_witness :
    1 < lvA.row_count ∧ lvA.selected = 0 ∧
    (listview_nav_up (listview_set_cycle lvA true)).selected = lvA.row_count - 1 :=
  ⟨by decide, by decide,
    (nav_up_down_wrap_unconditional lvA true (by decide)).1 (by decide)⟩

/-- C4: For every listview with row_count > 0 and every index i, after
`listview_set_selected i` the call `listview_get_selected` returns
min(i, row_count − 1); when row_count = 0, `listview_set_selected` leaves
the view unchanged. -/
theorem set_selected_get_selected (lv : ListView) (i : Nat) :
    (0 < lv.row_count →
      listview_get_selected (listview_set_selected lv i) = min i (lv.row_count - 1)) ∧
    (lv.row_count = 0 → listview_set_selected lv i = lv) := by
  constructor
  · intro hr
    have hne : lv.row_count ≠ 0 := by omega
    simp [listview_set_selected, listview_get_selected, navApply, hne]
  · intro h0
    simp [listview_set_selected, h0]

theorem set_selected_get_selected_witness :
    0 < lvA.row_count ∧
    listview_get_selected (listview_set_selected lvA 42) = min 42 (lvA.row_count - 1) :=
  ⟨by decide, (set_selected_get_selected lvA 42).1 (by decide)⟩

/-- C5: For every listview and every rows value, `listview_set_num_elements`
sets row_count to rows; if the current selected_index ≥ rows it clamps the
selection to rows − 1 when rows > 0 and to 0 when rows = 0, otherwise the
selection is unchanged; it recomputes scroll_offset, which keeps the
selection inside the visible window whenever the window is non-empty. -/
theorem set_num_elements_spec (lv : ListView) (rows : Nat) :
    (listview_set_num_elements lv rows).row_count = rows ∧
    (0 < rows → rows ≤ lv.selected →
      (listview_set_num_elements lv rows).selected = rows - 1) ∧
    (rows = 0 → (listview_set_num_elements lv rows).selected = 0) ∧
    (lv.selected < rows →
      (listview_set_num_elements lv rows).selected = lv.selected) ∧
    ((listview_set_num_elements lv rows).scroll_offset =
      clampWindow lv.stype lv.visible
        (listview_set_num_elements lv rows).selected lv.scroll_offset) ∧
    (0 < lv.visible → 0 < rows → visibleInv (listview_set_num_elements lv rows)) := by
  refine ⟨rfl, fun hr hs => ?_, fun h0 => ?_, fun hlt => ?_, ?_, fun hv _ => ?_⟩
  · simp [listview_set_num_elements, hs]
  · simp [listview_set_num_elements, h0]
  · simp [listview_set_num_elements, Nat.not_le.mpr hlt]
  · rfl
  · have h := clampWindow_mem lv.stype lv.visible
      (if rows ≤ lv.selected then rows - 1 else lv.selected) lv.scroll_offset hv
    exact ⟨h.1, h.2⟩

theorem set_num_elements_witness :
    0 < lvA.visible ∧ 0 < 3 ∧ visibleInv (listview_set_num_elements lvA 3) :=
  ⟨by decide, by decide,
    (set_num_elements_spec lvA 3).2.2.2.2.2 (by decide) (by decide)⟩

/-- C6: For every listview with row_count = 0, `listview_get_selected`
returns 0 and every navigation operation is a no-op leaving the whole state
unchanged; `listview_set_selected` clamps silently, leaving the empty view
unchanged for every index. -/
theorem empty_view_noop (lv : ListView) (h0 : lv.row_count = 0) :
    listview_get_selected lv = 0 ∧
    listview_nav_up lv = lv ∧ listview_nav_down lv = lv ∧
    listview_nav_left lv = lv ∧ listview_nav_right lv = lv ∧
    listview_nav_page_next lv = lv ∧ listview_nav_page_prev lv = lv ∧
    (∀ i : Nat, listview_set_selected lv i = lv) := by
  simp [listview_get_selected, listview_nav_up, listview_nav_down,
        listview_nav_left, listview_nav_right, listview_nav_page_next,
        listview_nav_page_prev, listview_set_selected, h0]

/-- Concrete empty listview used by the witnesses. -/
def lvEmpty : ListView :=
  { row_count := 0, selected := 0, scroll_offset := 0, visible := 5,
    max_lines := 5, row_height := 1, fixed := false, cycle := false,
    stype := .LISTVIEW_SCROLL_PER_PAGE, multi_selected := [] }

theorem empty_view_noop_witness :
    lvEmpty.row_count = 0 ∧ listview_get_selected lvEmpty = 0 ∧
    listview_nav_up lvEmpty = lvEmpty :=
  ⟨rfl, (empty_view_noop lvEmpty rfl).1, (empty_view_noop lvEmpty rfl).2.1⟩

/-- Concrete listview with one row but a zero-height visible window, as
produced in dynamic mode by a resize to height 0. -/
def lvZeroWindow : ListView :=
  { row_count := 1, selected := 0, scroll_offset := 0, visible := 0,
    max_lines := 0, row_height := 1, fixed := false, cycle := false,
    stype := .LISTVIEW_SCROLL_PER_PAGE, multi_selected := [] }

/-- C3 counterexample: with row_count = 1 but visible_line_count = 0 the
claimed invariant scroll_offset ≤ selected_index < scroll_offset +
visible_line_count is violated after `listview_nav_down`, since no index
can lie in an empty window. -/
theorem nav_visible_inv_fails_on_zero_window :
    0 < lvZeroWindow.row_count ∧
    ¬ ((listview_nav_down lvZeroWindow).scroll_offset ≤
         (listview_nav_down lvZeroWindow).selected ∧
       (listview_nav_down lvZeroWindow).selected <
         (listview_nav_down lvZeroWindow).scroll_offset +
           (listview_nav_down lvZeroWindow).visible) := by
  decide

/-- C3 (amended): for every listview with row_count > 0 and a non-empty
visible window (visible_line_count > 0), after any navigation operation the
invariant scroll_offset ≤ selected_index < scroll_offset +
visible_line_count holds. -/
theorem nav_keeps_selection_visible (lv : ListView) (hr : 0 < lv.row_count)
    (hv : 0 < lv.visible) :
    visibleInv (listview_nav_up lv) ∧ visibleInv (listview_nav_down lv) ∧
    visibleInv (listview_nav_left lv) ∧ visibleInv (listview_nav_right lv) ∧
    visibleInv (listview_nav_page_next lv) ∧
    visibleInv (listview_nav_page_prev lv) := by
  have hne : lv.row_count ≠ 0 := by omega
  refine ⟨?_, ?_, ?_, ?_, ?_, ?_⟩
  · unfold listview_nav_up
    rw [if_neg hne]; exact navApply_visibleInv _ _ hv
  · unfold listview_nav_down
    rw [if_neg hne]; exact navApply_visibleInv _ _ hv
  · unfold listview_nav_left
    rw [if_neg hne]; exact navApply_visibleInv _ _ hv
  · unfold listview_nav_right
    rw [if_neg hne]; exact navApply_visibleInv _ _ hv
  · unfold listview_nav_page_next
    rw [if_neg hne]
    split
    · exact navApply_visibleInv _ _ hv
    · exact navApply_visibleInv _ _ hv
  · unfold listview_nav_page_prev
    rw [if_neg hne]
    split
    · exact navApply_visibleInv _ _ hv
    · exact navApply_visibleInv _ _ hv

theorem nav_keeps_selection_visible_witness :
    0 < lvA.row_count ∧ 0 < lvA.visible ∧ visibleInv (listview_nav_down lvA) :=
  ⟨by decide, by decide,
    (nav_keeps_selection_visible lvA (by decide) (by decide)).2.1⟩

/-- C8: For every listview in dynamic mode, a resize giving available
height h yields visible_line_count = min(max_lines, floor(h / row_height));
in particular height k * row_height yields min(max_lines, k). -/
theorem resize_dynamic_visible_lines (lv : ListView) (hAvail k : Nat)
    (hf : lv.fixed = false) :
    (listview_resize lv hAvail).visible = min lv.max_lines (hAvail / lv.row_height) ∧
    (0 < lv.row_height →
      (listview_resize lv (k * lv.row_height)).visible = min lv.max_lines k) := by
  constructor
  · simp [listview_resize, hf]
  · intro hrh
    simp [listview_resize, hf, Nat.mul_div_cancel _ hrh]

theorem resize_dynamic_witness :
    lvA.fixed = false ∧
    (listview_resize lvA 3).visible = min lvA.max_lines (3 / lvA.row_height) :=
  ⟨rfl, (resize_dynamic_visible_lines lvA 3 0 rfl).1⟩

/-! ## Paging lemmas -/

lemma page_next_fields (lv : ListView) :
    (listview_nav_page_next lv).row_count = lv.row_count ∧
    (listview_nav_page_next lv).cycle = lv.cycle ∧
    (listview_nav_page_next lv).visible = lv.visible := by
  unfold listview_nav_page_next
  split
  · exact ⟨rfl, rfl, rfl⟩
  · split
    · exact ⟨rfl, rfl, rfl⟩
    · exact ⟨rfl, rfl, rfl⟩

lemma page_prev_fields (lv : ListView) :
    (listview_nav_page_prev lv).row_count = lv.row_count ∧
    (listview_nav_page_prev lv).cycle = lv.cycle ∧
    (listview_nav_page_prev lv).visible = lv.visible := by
  unfold listview_nav_page_prev
  split
  · exact ⟨rfl, rfl, rfl⟩
  · split
    · exact ⟨rfl, rfl, rfl⟩
    · exact ⟨rfl, rfl, rfl⟩

lemma page_next_selected_nocycle (lv : ListView) (hc : lv.cycle = false)
    (hr : lv.row_count ≠ 0) :
    (listview_nav_page_next lv).selected =
      min (lv.selected + lv.visible) (lv.row_count - 1) := by
  unfold listview_nav_page_next
  rw [if_neg hr, if_neg (by simp [hc])]
  rfl

lemma page_prev_selected_nocycle (lv : ListView) (hc : lv.cycle = false)
    (hr : lv.row_count ≠ 0) :
    (listview_nav_page_prev lv).selected = lv.selected - lv.visible := by
  unfold listview_nav_page_prev
  rw [if_neg hr, if_neg (by simp [hc])]
  rfl

lemma page_next_reach : ∀ (n : Nat) (lv : ListView), lv.cycle = false →
    0 < lv.visible → 0 < lv.row_count → lv.selected < lv.row_count →
    lv.row_count ≤ lv.selected + 1 + n →
    ((listview_nav_page_next)^[n] lv).selected = lv.row_count - 1
  | 0, lv, _, _, _, hs, hn => by
      simp only [Function.iterate_zero_apply]
      omega
  | n + 1, lv, hc, hv, hr, hs, hn => by
      rw [Function.iterate_succ_apply]
      have hf := page_next_fields lv
      have hsel := page_next_selected_nocycle lv hc (by omega)
      have h := page_next_reach n (listview_nav_page_next lv)
        (by rw [hf.2.1]; exact hc) (by rw [hf.2.2]; exact hv)
        (by rw [hf.1]; exact hr) (by rw [hf.1, hsel]; omega)
        (by rw [hf.1, hsel]; omega)
      rw [h, hf.1]

lemma page_prev_reach : ∀ (n : Nat) (lv : ListView), lv.cycle = false →
    0 < lv.visible → 0 < lv.row_count → lv.selected ≤ n →
    ((listview_nav_page_prev)^[n] lv).selected = 0
  | 0, lv, _, _, _, hs => by
      simp only [Function.iterate_zero_apply]
      omega
  | n + 1, lv, hc, hv, hr, hs => by
      rw [Function.iterate_succ_apply]
      have hf := page_prev_fields lv
      have hsel := page_prev_selected_nocycle lv hc (by omega)
      exact page_prev_reach n (listview_nav_page_prev lv)
        (by rw [hf.2.1]; exact hc) (by rw [hf.2.2]; exact hv)
        (by rw [hf.1]; exact hr) (by rw [hsel]; omega)

lemma page_next_iter_fields : ∀ (n : Nat) (lv : ListView),
    ((listview_nav_page_next)^[n] lv).row_count = lv.row_count ∧
    ((listview_nav_page_next)^[n] lv).cycle = lv.cycle ∧
    ((listview_nav_page_next)^[n] lv).visible = lv.visible
  | 0, lv => by simp
  | n + 1, lv => by
      rw [Function.iterate_succ_apply]
      have h1 := page_next_iter_fields n (listview_nav_page_next lv)
      have h2 := page_next_fields lv
      exact ⟨h1.1.trans h2.1, h1.2.1.trans h2.2.1, h1.2.2.trans h2.2.2⟩

/-- C2: For every listview with row_count > 0 (selection in range and a
non-empty window), repeated `listview_nav_page_next` leaves the selection
clipped at row_count − 1 when cycle = false, and when cycle = true a
page-next at the last row wraps the selection to 0; symmetrically,
`listview_nav_page_prev` clips at 0 when cycle = false and wraps from row 0
to row_count − 1 when cycle = true. -/
theorem page_nav_clip_and_cycle (lv : ListView) (hr : 0 < lv.row_count)
    (hv : 0 < lv.visible) (hs : lv.selected < lv.row_count) :
    (lv.cycle = false →
      ((listview_nav_page_next)^[lv.row_count] lv).selected = lv.row_count - 1 ∧
      (listview_nav_page_next
        ((listview_nav_page_next)^[lv.row_count] lv)).selected = lv.row_count - 1 ∧
      ((listview_nav_page_prev)^[lv.row_count] lv).selected = 0) ∧
    (lv.cycle = true →
      (lv.selected = lv.row_count - 1 → (listview_nav_page_next lv).selected = 0) ∧
      (lv.selected = 0 →
        (listview_nav_page_prev lv).selected = lv.row_count - 1)) := by
  constructor
  · intro hc
    have hreach := page_next_reach lv.row_count lv hc hv hr hs (by omega)
    refine ⟨hreach, ?_, page_prev_reach lv.row_count lv hc hv hr (by omega)⟩
    have hf := page_next_iter_fields lv.row_count lv
    have hsel := page_next_selected_nocycle ((listview_nav_page_next)^[lv.row_count] lv)
      (by rw [hf.2.1]; exact hc) (by rw [hf.1]; omega)
    rw [hsel, hreach, hf.1]
    omega
  · intro hc
    constructor
    · intro hlast
      unfold listview_nav_page_next
      rw [if_neg (by omega), if_pos ⟨hc, hlast⟩]
      rfl
    · intro h0
      unfold listview_nav_page_prev
      rw [if_neg (by omega), if_pos ⟨hc, h0⟩]
      rfl

theorem page_nav_clip_witness :
    0 < lvA.row_count ∧ 0 < lvA.visible ∧ lvA.selected < lvA.row_count ∧
    ((listview_nav_page_next)^[lvA.row_count] lvA).selected = lvA.row_count - 1 :=
  ⟨by decide, by decide, by decide,
    ((page_nav_clip_and_cycle lvA (by decide) (by decide) (by decide)).1 rfl).1⟩

/-! ## Redraw propagation lemmas -/

lemma modifyChild_congr (f g : WTree → WTree) (hfg : ∀ c, f c = g c) :
    ∀ (i : Nat) (cs : List WTree), modifyChild f i cs = modifyChild g i cs
  | i, [] => by cases i <;> rfl
  | 0, c :: cs => by simp only [modifyChild, hfg]
  | i + 1, c :: cs => by
      simp only [modifyChild]
      rw [modifyChild_congr f g hfg i cs]

lemma modifyChild_comp (f g : WTree → WTree) :
    ∀ (i : Nat) (cs : List WTree),
      modifyChild f i (modifyChild g i cs) = modifyChild (fun c => f (g c)) i cs
  | i, [] => by cases i <;> rfl
  | 0, c :: cs => rfl
  | i + 1, c :: cs => by
      simp only [modifyChild]
      rw [modifyChild_comp f g i cs]

lemma queue_redraw_idem : ∀ (p : List Nat) (t : WTree),
    widget_queue_redraw p (widget_queue_redraw p t) = widget_queue_redraw p t
  | [], .node d cs => rfl
  | i :: p, .node d cs => by
      simp only [widget_queue_redraw]
      rw [modifyChild_comp]
      exact congrArg (WTree.node true)
        (modifyChild_congr _ _ (fun c => queue_redraw_idem p c) i cs)

lemma queue_redraw_iterate : ∀ (n : Nat) (p : List Nat) (t : WTree),
    (widget_queue_redraw p)^[n + 1] t = widget_queue_redraw p t
  | 0, _, _ => by simp
  | n + 1, p, t => by
      rw [Function.iterate_succ_apply', queue_redraw_iterate n p t]
      exact queue_redraw_idem p t

lemma queue_redraw_sets_root (p : List Nat) (t : WTree) :
    widget_need_redraw (widget_queue_redraw p t) = true := by
  cases p <;> cases t <;> rfl

/-- C7: `widget_queue_redraw` is idempotent on the dirty-flag state: N ≥ 1
calls before the next render pass produce the same state as one call, the
flag is set on the toplevel widget along the parent chain, and the next
render pass performs exactly one draw of the widget's subtree. -/
theorem queue_redraw_idempotent_single_draw (p : List Nat) (t : WTree)
    (n : Nat) (hn : 1 ≤ n) :
    (widget_queue_redraw p)^[n] t = widget_queue_redraw p t ∧
    widget_need_redraw ((widget_queue_redraw p)^[n] t) = true ∧
    renderDrawCount ((widget_queue_redraw p)^[n] t) = 1 := by
  obtain ⟨m, rfl⟩ : ∃ m, n = m + 1 := ⟨n - 1, by omega⟩
  refine ⟨queue_redraw_iterate m p t, ?_, ?_⟩
  · rw [queue_redraw_iterate m p t]
    exact queue_redraw_sets_root p t
  · rw [queue_redraw_iterate m p t]
    simp [renderDrawCount, queue_redraw_sets_root p t]

/-- Concrete widget tree used by the redraw witness: a root with two
children, all clean. -/
def wtSample : WTree := .node false [.node false [], .node false []]

theorem queue_redraw_witness :
    1 ≤ 3 ∧ renderDrawCount ((widget_queue_redraw [0])^[3] wtSample) = 1 :=
  ⟨by decide,
    (queue_redraw_idempotent_single_draw [0] wtSample 3 (by decide)).2.2⟩

/-! ## Widget geometry theorems -/

/-- C9: `widget_intersect` is a pure hit-test — it returns a value, mutates
nothing, and its result depends only on the widget's geometry — returning
true exactly when (px, py) falls within the widget's rectangle; and after
any `widget_resize` the stored width and height are non-negative. -/
theorem intersect_pure_and_resize_nonneg (wd : Widget) (px py : Int) :
    (widget_intersect wd px py = true ↔
      wd.x ≤ px ∧ px < wd.x + wd.w ∧ wd.y ≤ py ∧ py < wd.y + wd.h) ∧
    (∀ wd2 : Widget, wd2.x = wd.x → wd2.y = wd.y → wd2.w = wd.w →
      wd2.h = wd.h → widget_intersect wd2 px py = widget_intersect wd px py) ∧
    (∀ a b : Int, 0 ≤ widget_get_width (widget_resize wd a b) ∧
      0 ≤ widget_get_height (widget_resize wd a b)) := by
  refine ⟨by simp [widget_intersect], fun wd2 h1 h2 h3 h4 => ?_, fun a b => ?_⟩
  · simp [widget_intersect, h1, h2, h3, h4]
  · exact ⟨le_max_left 0 _, le_max_left 0 _⟩

/-- Concrete widgets used by the geometry witnesses; they share their
geometry and differ only in the enabled flag. -/
def wdA : Widget := { x := 0, y := 0, w := 10, h := 10, enabled := true }

/-- Second concrete widget, same geometry as wdA, disabled. -/
def wdB : Widget := { x := 0, y := 0, w := 10, h := 10, enabled := false }

theorem intersect_pure_witness :
    widget_intersect wdB 3 4 = widget_intersect wdA 3 4 ∧
    0 ≤ widget_get_width (widget_resize wdA 5 6) :=
  ⟨(intersect_pure_and_resize_nonneg wdA 3 4).2.1 wdB rfl rfl rfl rfl,
    ((intersect_pure_and_resize_nonneg wdA 3 4).2.2 5 6).1⟩

lemma toShort_idem (n : Int) : toShort (toShort n) = toShort n := by
  unfold toShort
  omega

/-- C10: `widget_move` and `widget_resize` take 16-bit signed short
arguments while the getters return int, so a coordinate round-trips through
the getter exactly when it lies in [-32768, 32767], a dimension round-trips
only when it lies in that range, and every argument is truncated modulo
2^16 before being stored. -/
theorem move_resize_short_roundtrip (wd : Widget) (nx ny nw nh : Int) :
    (widget_get_x_pos (widget_move wd nx ny) = nx ↔
      -32768 ≤ nx ∧ nx ≤ 32767) ∧
    (widget_get_y_pos (widget_move wd nx ny) = ny ↔
      -32768 ≤ ny ∧ ny ≤ 32767) ∧
    (widget_get_width (widget_resize wd nw nh) = nw →
      -32768 ≤ nw ∧ nw ≤ 32767) ∧
    (widget_get_height (widget_resize wd nw nh) = nh →
      -32768 ≤ nh ∧ nh ≤ 32767) ∧
    widget_move wd nx ny = widget_move wd (toShort nx) (toShort ny) ∧
    widget_resize wd nw nh = widget_resize wd (toShort nw) (toShort nh) ∧
    toShort nx % 65536 = nx % 65536 := by
  refine ⟨?_, ?_, ?_, ?_, ?_, ?_, ?_⟩
  · show toShort nx = nx ↔ _
    unfold toShort
    omega
  · show toShort ny = ny ↔ _
    unfold toShort
    omega
  · show max 0 (toShort nw) = nw → _
    unfold toShort
    omega
  · show max 0 (toShort nh) = nh → _
    unfold toShort
    omega
  · simp [widget_move, toShort_idem]
  · simp [widget_resize, toShort_idem]
  · unfold toShort
    omega

theorem short_roundtrip_witness :
    (widget_get_x_pos (widget_move wdA 40000 0) = 40000 ↔
      -32768 ≤ (40000 : Int) ∧ (40000 : Int) ≤ 32767) ∧
    widget_move wdA 40000 0 = widget_move wdA (toShort 40000) (toShort 0) :=
  ⟨(move_resize_short_roundtrip wdA 40000 0 0 0).1,
    (move_resize_short_roundtrip wdA 40000 0 0 0).2.2.2.2.1⟩

end Rofi
